import Mathlib

/-!
Verification of src/main.cpp of the sdl2_vulkan repository.

The program is a single linear main routine: it initializes SDL and Vulkan,
builds a raster pipeline and NV ray tracing acceleration structures for one
hard coded triangle, then renders one frame per loop iteration until the
window is closed. This file gives a shallow embedding of the parts of the
program that the checked properties concern: the CHECK_VULKAN error macro,
the memory type search, the physical device selection, the instance record
written for the top level acceleration structure, the event loop, and the
program order traces of API call sites, resource creations and destructions,
upload submissions, and queue operations.
-/

namespace SdlVulkan

/-- Vulkan result codes form a C enum; we model them as integers, with
VK_SUCCESS equal to 0 as in vulkan_core.h. -/
def VK_SUCCESS : Int := 0

/-- Translation of the CHECK_VULKAN macro of src/main.cpp lines 12 to 19: the
result of the wrapped call is compared against VK_SUCCESS and a runtime_error
is thrown (modelled as Except.error) on any other result. -/
def CHECK_VULKAN (r : Int) : Except String Unit :=
  if r = VK_SUCCESS then Except.ok () else Except.error "CHECK_VULKAN failed"

/-- Memory type entry of VkPhysicalDeviceMemoryProperties: the code reads only
the propertyFlags bitmask, a uint32 flag set modelled as a natural number. -/
structure VkMemoryType where
  propertyFlags : Nat
deriving DecidableEq

/-- The slice of VkPhysicalDeviceMemoryProperties read by get_memory_type_index:
memoryTypeCount and the memoryTypes array, modelled as a total function from
index to entry (the code only reads indices below memoryTypeCount). -/
structure VkPhysicalDeviceMemoryProperties where
  memoryTypeCount : Nat
  memoryTypes : Nat → VkMemoryType

/-- The loop condition of get_memory_type_index (src/main.cpp line 51): bit i of
type_filter is set (type_filter and 1 shifted left by i is nonzero) and the
requested props bits are all present in memoryTypes[i].propertyFlags. -/
def memory_type_matches (type_filter props : Nat)
    (mem_props : VkPhysicalDeviceMemoryProperties) (i : Nat) : Bool :=
  type_filter &&& (1 <<< i) != 0 &&
    ((mem_props.memoryTypes i).propertyFlags &&& props) == props

/-- The for loop of get_memory_type_index: the first argument is the current
index i, the second the number of remaining iterations memoryTypeCount - i;
the loop returns the first matching index and falls through otherwise. -/
def find_memory_type (type_filter props : Nat)
    (mem_props : VkPhysicalDeviceMemoryProperties) : Nat → Nat → Option Nat
  | _, 0 => none
  | i, rem + 1 =>
    if memory_type_matches type_filter props mem_props i then some i
    else find_memory_type type_filter props mem_props (i + 1) rem

/-- Translation of get_memory_type_index (src/main.cpp lines 49 to 56): scan
indices 0 up to memoryTypeCount - 1 in order, return the first match, and
throw a runtime_error when the loop completes without a match. -/
def get_memory_type_index (type_filter props : Nat)
    (mem_props : VkPhysicalDeviceMemoryProperties) : Except String Nat :=
  match find_memory_type type_filter props mem_props 0 mem_props.memoryTypeCount with
  | some i => Except.ok i
  | none => Except.error "failed to find appropriate memory"

/-- Spec side reading of the matching condition at index i: bit i of the type
filter is set, and every bit set in the requested property flags is also set
in the propertyFlags of memory type i. -/
def memory_type_admissible (type_filter props : Nat)
    (mem_props : VkPhysicalDeviceMemoryProperties) (i : Nat) : Prop :=
  type_filter.testBit i = true ∧
    ∀ b : Nat, props.testBit b = true →
      ((mem_props.memoryTypes i).propertyFlags).testBit b = true

theorem and_shiftLeft_one_ne_zero (n i : Nat) :
    (n &&& (1 <<< i) != 0) = n.testBit i := by
  have h1 : (1 : Nat) <<< i = 2 ^ i := by
    rw [Nat.shiftLeft_eq, one_mul]
  rw [h1, Nat.and_two_pow]
  cases h : n.testBit i <;> simp [h]

theorem and_eq_right_iff_testBit_le (flags props : Nat) :
    ((flags &&& props) == props) = true ↔
      (∀ b : Nat, props.testBit b = true → flags.testBit b = true) := by
  rw [beq_iff_eq]
  constructor
  · intro h b hb
    have := congrArg (fun m => m.testBit b) h
    simp only [Nat.testBit_and] at this
    rw [hb, Bool.and_true] at this
    exact this
  · intro h
    apply Nat.eq_of_testBit_eq
    intro b
    simp only [Nat.testBit_and]
    cases hb : props.testBit b
    · simp
    · rw [h b hb, Bool.true_and]

theorem memory_type_matches_iff (type_filter props : Nat)
    (mem_props : VkPhysicalDeviceMemoryProperties) (i : Nat) :
    memory_type_matches type_filter props mem_props i = true ↔
      memory_type_admissible type_filter props mem_props i := by
  unfold memory_type_matches memory_type_admissible
  rw [Bool.and_eq_true, and_shiftLeft_one_ne_zero,
    and_eq_right_iff_testBit_le]

theorem find_memory_type_some (type_filter props : Nat)
    (mem_props : VkPhysicalDeviceMemoryProperties) :
    ∀ (rem i j : Nat),
      find_memory_type type_filter props mem_props i rem = some j ↔
        (i ≤ j ∧ j < i + rem ∧
          memory_type_matches type_filter props mem_props j = true ∧
          ∀ k : Nat, i ≤ k → k < j →
            memory_type_matches type_filter props mem_props k = false) := by
  intro rem
  induction rem with
  | zero =>
    intro i j
    simp only [find_memory_type]
    constructor
    · intro h; cases h
    · intro h; omega
  | succ r ih =>
    intro i j
    simp only [find_memory_type]
    by_cases hm : memory_type_matches type_filter props mem_props i = true
    · rw [if_pos hm, Option.some_inj]
      constructor
      · rintro rfl
        exact ⟨Nat.le_refl i, by omega, hm, fun k hk1 hk2 => by omega⟩
      · rintro ⟨h1, _, _, h4⟩
        by_contra hne
        have hij : i < j := Nat.lt_of_le_of_ne h1 hne
        have hfalse := h4 i (Nat.le_refl i) hij
        rw [hm] at hfalse
        exact Bool.true_eq_false.mp hfalse
    · rw [if_neg hm, ih (i + 1) j]
      constructor
      · rintro ⟨h1, h2, h3, h4⟩
        refine ⟨by omega, by omega, h3, fun k hk1 hk2 => ?_⟩
        rcases Nat.eq_or_lt_of_le hk1 with h | h
        · subst h
          exact Bool.eq_false_iff.mpr hm
        · exact h4 k h hk2
      · rintro ⟨h1, h2, h3, h4⟩
        have hij : i ≠ j := by
          rintro rfl
          exact hm h3
        refine ⟨by omega, by omega, h3, fun k hk1 hk2 => h4 k (by omega) hk2⟩

theorem find_memory_type_none (type_filter props : Nat)
    (mem_props : VkPhysicalDeviceMemoryProperties) :
    ∀ (rem i : Nat),
      find_memory_type type_filter props mem_props i rem = none ↔
        ∀ k : Nat, i ≤ k → k < i + rem →
          memory_type_matches type_filter props mem_props k = false := by
  intro rem
  induction rem with
  | zero =>
    intro i
    simp only [find_memory_type]
    constructor
    · intro _ k hk1 hk2; omega
    · intro _; trivial
  | succ r ih =>
    intro i
    simp only [find_memory_type]
    by_cases hm : memory_type_matches type_filter props mem_props i = true
    · rw [if_pos hm]
      constructor
      · intro h; cases h
      · intro h
        have hfalse := h i (Nat.le_refl i) (by omega)
        rw [hm] at hfalse
        exact absurd hfalse (by simp)
    · rw [if_neg hm, ih (i + 1)]
      constructor
      · intro h k hk1 hk2
        rcases Nat.eq_or_lt_of_le hk1 with he | hlt
        · subst he
          exact Bool.eq_false_iff.mpr hm
        · exact h k hlt (by omega)
      · intro h k hk1 hk2
        exact h k (by omega) (by omega)

/-- Claim C8: for every memory properties table, type filter, and requested
property flags, get_memory_type_index returns the smallest index i below
memoryTypeCount whose bit is set in the type filter and whose propertyFlags
contain all requested flags, and it throws a runtime_error exactly when no
such index exists. -/
theorem C8_get_memory_type_index_spec (type_filter props : Nat)
    (mem_props : VkPhysicalDeviceMemoryProperties) :
    (∀ i : Nat,
      get_memory_type_index type_filter props mem_props = Except.ok i ↔
        (i < mem_props.memoryTypeCount ∧
          memory_type_admissible type_filter props mem_props i ∧
          ∀ j : Nat, j < i →
            ¬ memory_type_admissible type_filter props mem_props j)) ∧
    ((∃ e : String, get_memory_type_index type_filter props mem_props = Except.error e) ↔
      ∀ i : Nat, i < mem_props.memoryTypeCount →
        ¬ memory_type_admissible type_filter props mem_props i) := by
  constructor
  · intro i
    unfold get_memory_type_index
    cases hf : find_memory_type type_filter props mem_props 0 mem_props.memoryTypeCount with
    | none =>
      simp only [reduceCtorEq, false_iff]
      rw [find_memory_type_none] at hf
      rintro ⟨hlt, hadm, _⟩
      have hfalse := hf i (Nat.zero_le i) (by omega)
      rw [← memory_type_matches_iff type_filter props mem_props i] at hadm
      rw [hadm] at hfalse
      exact Bool.true_eq_false.mp hfalse
    | some j =>
      rw [find_memory_type_some] at hf
      obtain ⟨_, hj2, hj3, hj4⟩ := hf
      simp only [Except.ok.injEq]
      constructor
      · rintro rfl
        refine ⟨by omega, (memory_type_matches_iff _ _ _ _).mp hj3, fun k hk => ?_⟩
        rw [← memory_type_matches_iff]
        simp [hj4 k (Nat.zero_le k) hk]
      · rintro ⟨h1, h2, h3⟩
        rcases Nat.lt_trichotomy j i with h | h | h
        · exact absurd ((memory_type_matches_iff _ _ _ _).mp hj3) (h3 j h)
        · exact h
        · have hfalse := hj4 i (Nat.zero_le i) h
          rw [← memory_type_matches_iff] at h2
          rw [h2] at hfalse
          exact (Bool.true_eq_false.mp hfalse).elim
  · unfold get_memory_type_index
    cases hf : find_memory_type type_filter props mem_props 0 mem_props.memoryTypeCount with
    | none =>
      rw [find_memory_type_none] at hf
      constructor
      · intro _ i hi hadm
        have hfalse := hf i (Nat.zero_le i) (by omega)
        rw [← memory_type_matches_iff] at hadm
        rw [hadm] at hfalse
        exact Bool.true_eq_false.mp hfalse
      · intro _
        exact ⟨"failed to find appropriate memory", rfl⟩
    | some j =>
      rw [find_memory_type_some] at hf
      obtain ⟨_, hj2, hj3, _⟩ := hf
      simp only [reduceCtorEq, exists_false, false_iff, not_forall]
      exact ⟨j, by omega, fun h => h ((memory_type_matches_iff _ _ _ _).mp hj3)⟩

/-- Physical device type constants read by the selection code, from the
VkPhysicalDeviceType enum. -/
inductive VkPhysicalDeviceType
  | integratedGpu
  | discreteGpu
  | virtualGpu
  | cpuType
  | otherType
deriving DecidableEq

/-- The fields of a physical device read by the selection block: deviceName
feeds logging only, deviceType drives the choice. -/
structure VkPhysicalDevice where
  deviceName : String
  deviceType : VkPhysicalDeviceType
deriving DecidableEq

/-- Translation of the has_discrete_gpu find_if of src/main.cpp lines 145 to
150: whether any enumerated device is a discrete GPU. -/
def has_discrete_gpu (devices : List VkPhysicalDevice) : Bool :=
  devices.any fun d => d.deviceType == VkPhysicalDeviceType.discreteGpu

/-- The selection loop of src/main.cpp lines 152 to 177, with hdg the value of
has_discrete_gpu for the whole list: assign vk_physical_device and break when
the current device is discrete and a discrete one exists, or when it is
integrated and no discrete one exists. -/
def select_loop (hdg : Bool) : List VkPhysicalDevice → Option VkPhysicalDevice
  | [] => none
  | d :: rest =>
    if hdg && d.deviceType == VkPhysicalDeviceType.discreteGpu then some d
    else if !hdg && d.deviceType == VkPhysicalDeviceType.integratedGpu then some d
    else select_loop hdg rest

/-- The physical device selection block of src/main.cpp lines 137 to 178:
vk_physical_device starts as VK_NULL_HANDLE (none here) and keeps that value
when the loop assigns nothing. -/
def select_physical_device (devices : List VkPhysicalDevice) : Option VkPhysicalDevice :=
  select_loop (has_discrete_gpu devices) devices

theorem select_loop_true (devices : List VkPhysicalDevice) :
    select_loop true devices =
      devices.find? fun d => d.deviceType == VkPhysicalDeviceType.discreteGpu := by
  induction devices with
  | nil => rfl
  | cons d rest ih =>
    simp only [select_loop, List.find?, Bool.true_and]
    cases hd : d.deviceType == VkPhysicalDeviceType.discreteGpu
    · simpa using ih
    · simp

theorem select_loop_false (devices : List VkPhysicalDevice) :
    select_loop false devices =
      devices.find? fun d => d.deviceType == VkPhysicalDeviceType.integratedGpu := by
  induction devices with
  | nil => rfl
  | cons d rest ih =>
    simp only [select_loop, List.find?, Bool.false_and, Bool.not_false, Bool.true_and,
      if_false, Bool.false_eq_true]
    cases hd : d.deviceType == VkPhysicalDeviceType.integratedGpu
    · simpa using ih
    · simp

/-- Claim C9: when the enumerated list holds a discrete GPU, the first discrete
GPU in enumeration order is selected; otherwise, when it holds an integrated
GPU, the first integrated GPU is selected; otherwise the handle stays
VK_NULL_HANDLE (none) and the selection step raises no error, being a total
function into Option. -/
theorem C9_physical_device_selection :
    (∀ devices : List VkPhysicalDevice,
      (∃ d ∈ devices, d.deviceType = VkPhysicalDeviceType.discreteGpu) →
        select_physical_device devices =
          devices.find? fun d => d.deviceType == VkPhysicalDeviceType.discreteGpu) ∧
    (∀ devices : List VkPhysicalDevice,
      (∀ d ∈ devices, d.deviceType ≠ VkPhysicalDeviceType.discreteGpu) →
        select_physical_device devices =
          devices.find? fun d => d.deviceType == VkPhysicalDeviceType.integratedGpu) ∧
    (∀ devices : List VkPhysicalDevice,
      (∀ d ∈ devices, d.deviceType ≠ VkPhysicalDeviceType.discreteGpu ∧
          d.deviceType ≠ VkPhysicalDeviceType.integratedGpu) →
        select_physical_device devices = none) := by
  have hdg_true : ∀ devices : List VkPhysicalDevice,
      (∃ d ∈ devices, d.deviceType = VkPhysicalDeviceType.discreteGpu) →
      has_discrete_gpu devices = true := by
    intro devices ⟨d, hd, ht⟩
    unfold has_discrete_gpu
    rw [List.any_eq_true]
    exact ⟨d, hd, by rw [ht]; rfl⟩
  have hdg_false : ∀ devices : List VkPhysicalDevice,
      (∀ d ∈ devices, d.deviceType ≠ VkPhysicalDeviceType.discreteGpu) →
      has_discrete_gpu devices = false := by
    intro devices h
    unfold has_discrete_gpu
    rw [List.any_eq_false]
    intro d hd
    simpa using h d hd
  refine ⟨?_, ?_, ?_⟩
  · intro devices hex
    unfold select_physical_device
    rw [hdg_true devices hex, select_loop_true]
  · intro devices hall
    unfold select_physical_device
    rw [hdg_false devices hall, select_loop_false]
  · intro devices hall
    unfold select_physical_device
    rw [hdg_false devices (fun d hd => (hall d hd).1), select_loop_false,
      List.find?_eq_none]
    intro d hd
    simpa using (hall d hd).2

/-- Sample devices for the selection witness. -/
def sample_integrated : VkPhysicalDevice :=
  ⟨"sample integrated gpu", VkPhysicalDeviceType.integratedGpu⟩

def sample_discrete : VkPhysicalDevice :=
  ⟨"sample discrete gpu", VkPhysicalDeviceType.discreteGpu⟩

/-- Witness for claim C9 at a concrete device list: an integrated GPU listed
before a discrete one, where the selection picks the discrete GPU. -/
theorem C9_physical_device_selection_witness :
    select_physical_device [sample_integrated, sample_discrete] =
      [sample_integrated, sample_discrete].find?
        (fun d => d.deviceType == VkPhysicalDeviceType.discreteGpu) ∧
    select_physical_device [sample_integrated, sample_discrete] = some sample_discrete :=
  ⟨C9_physical_device_selection.1 [sample_integrated, sample_discrete]
      ⟨sample_discrete, by simp, rfl⟩,
    by decide⟩

/-- Translation of struct VkGeometryInstanceNV (src/main.cpp lines 30 to 37): a
twelve entry 3 by 4 transform of 32 bit floats, bitfields
instance_custom_index (24 bits), mask (8 bits), instance_offset (24 bits),
flags (8 bits), and a 64 bit acceleration structure handle. The program only
ever writes the exact float values 0.0 and 1.0 into the transform, so its
entries are represented exactly as rationals; the integer fields are naturals
standing for the bitfield and uint64 values written. -/
structure VkGeometryInstanceNV where
  transform : List ℚ
  instance_custom_index : Nat
  mask : Nat
  instance_offset : Nat
  flags : Nat
  acceleration_structure_handle : Nat
deriving DecidableEq

/-- The memset of src/main.cpp line 774: the whole record, transform entries
included, is zeroed. -/
def zeroed_instance : VkGeometryInstanceNV :=
  { transform := List.replicate 12 0
    instance_custom_index := 0
    mask := 0
    instance_offset := 0
    flags := 0
    acceleration_structure_handle := 0 }

/-- The instance record written through the upload mapping at src/main.cpp
lines 774 to 784: memset to zero, then transform[0], transform[4],
transform[8] and transform[11] set to 1.0, instance_custom_index to 0, mask to
0xff, instance_offset to 0, and the handle to the one queried from the bottom
level acceleration structure; flags keeps its zero from the memset. -/
def written_instance (blas_handle : Nat) : VkGeometryInstanceNV :=
  { zeroed_instance with
    transform := ((((zeroed_instance.transform).set 0 1).set 4 1).set 8 1).set 11 1
    instance_custom_index := 0
    mask := 0xff
    instance_offset := 0
    acceleration_structure_handle := blas_handle }

/-- A row major 3 by 4 identity transform: rows of length four, with ones at
flat indices 0, 5 and 10. -/
def identity_transform_3x4 : List ℚ :=
  [1, 0, 0, 0, 0, 1, 0, 0, 0, 0, 1, 0]

/-- Claim C10: the uploaded instance record has mask 0xff, custom index 0,
instance offset 0, flags 0, the queried bottom level handle, and a transform
whose ones sit at flat indices 0, 4, 8 and 11 with zeros elsewhere, which
differs from the row major 3 by 4 identity transform. -/
theorem C10_instance_record (blas_handle : Nat) :
    (written_instance blas_handle).mask = 0xff ∧
    (written_instance blas_handle).instance_custom_index = 0 ∧
    (written_instance blas_handle).instance_offset = 0 ∧
    (written_instance blas_handle).flags = 0 ∧
    (written_instance blas_handle).acceleration_structure_handle = blas_handle ∧
    (written_instance blas_handle).transform =
      [1, 0, 0, 0, 1, 0, 0, 0, 1, 0, 0, 1] ∧
    (written_instance blas_handle).transform ≠ identity_transform_3x4 := by
  refine ⟨rfl, rfl, rfl, rfl, rfl, rfl, ?_⟩
  intro h
  have hcontra : ([1, 0, 0, 0, 1, 0, 0, 0, 1, 0, 0, 1] : List ℚ) = identity_transform_3x4 := by
    rw [← h]; rfl
  exact absurd hcontra (by decide)

/-- SDL event type tag for quit requests, value from the SDL2 headers. -/
def SDL_QUIT : Nat := 0x100

/-- SDL event type tag for key presses. -/
def SDL_KEYDOWN : Nat := 0x300

/-- SDL event type tag for window events. -/
def SDL_WINDOWEVENT : Nat := 0x200

/-- SDL key code of the escape key. -/
def SDLK_ESCAPE : Nat := 27

/-- SDL window event subtype for a window close request. -/
def SDL_WINDOWEVENT_CLOSE : Nat := 14

/-- The fields of the SDL_Event union read by the loop: the event type tag,
key.keysym.sym (read for key events), and window.event and window.windowID
(read for window events). -/
structure SDL_Event where
  etype : Nat
  keysym : Nat
  windowEvent : Nat
  windowID : Nat
deriving DecidableEq

/-- Translation of the three ifs of the poll loop body (src/main.cpp lines 969
to 978) applied to one polled event: each condition may set done to true and
none resets it; window_id is the SDL_GetWindowID of the window of the
program. -/
def handle_event (window_id : Nat) (done : Bool) (e : SDL_Event) : Bool :=
  let done1 := if e.etype == SDL_QUIT then true else done
  let done2 := if e.etype == SDL_KEYDOWN && e.keysym == SDLK_ESCAPE then true else done1
  if e.etype == SDL_WINDOWEVENT && e.windowEvent == SDL_WINDOWEVENT_CLOSE &&
      e.windowID == window_id then true
  else done2

/-- The inner while SDL_PollEvent loop of one render loop iteration: fold the
event handler over the batch of polled events. -/
def poll_events (window_id : Nat) (done : Bool) (events : List SDL_Event) : Bool :=
  events.foldl (handle_event window_id) done

/-- Spec side loop exit predicate: an SDL_QUIT event, an escape key down
event, or a close window event for the window of the program. -/
def exit_event (window_id : Nat) (e : SDL_Event) : Bool :=
  e.etype == SDL_QUIT ||
    (e.etype == SDL_KEYDOWN && e.keysym == SDLK_ESCAPE) ||
    (e.etype == SDL_WINDOWEVENT && e.windowEvent == SDL_WINDOWEVENT_CLOSE &&
      e.windowID == window_id)

theorem handle_event_eq (window_id : Nat) (done : Bool) (e : SDL_Event) :
    handle_event window_id done e = (done || exit_event window_id e) := by
  unfold handle_event exit_event
  cases h1 : e.etype == SDL_QUIT <;>
    cases h2 : e.etype == SDL_KEYDOWN && e.keysym == SDLK_ESCAPE <;>
      cases h3 : e.etype == SDL_WINDOWEVENT && e.windowEvent == SDL_WINDOWEVENT_CLOSE &&
          e.windowID == window_id <;>
        simp [h1, h2, h3]

theorem poll_events_eq (window_id : Nat) (done : Bool) (events : List SDL_Event) :
    poll_events window_id done events = (done || events.any (exit_event window_id)) := by
  induction events generalizing done with
  | nil => simp [poll_events]
  | cons e rest ih =>
    unfold poll_events at ih ⊢
    rw [List.foldl_cons, List.any_cons, handle_event_eq, ih, Bool.or_assoc]

/-- Claim C5: one handled event sets the done flag (from false) exactly when it
is an SDL_QUIT event, a key down event of the escape key, or a window close
event for the window of the program; any other event leaves done unchanged,
and a polled batch sets done exactly when it holds such an event. -/
theorem C5_loop_exit_condition (window_id : Nat) (done : Bool) (e : SDL_Event)
    (events : List SDL_Event) :
    (handle_event window_id done e = (done || exit_event window_id e)) ∧
    (handle_event window_id false e = true ↔
      (e.etype = SDL_QUIT ∨
        (e.etype = SDL_KEYDOWN ∧ e.keysym = SDLK_ESCAPE) ∨
        (e.etype = SDL_WINDOWEVENT ∧ e.windowEvent = SDL_WINDOWEVENT_CLOSE ∧
          e.windowID = window_id))) ∧
    (poll_events window_id false events = true ↔
      ∃ ev ∈ events, exit_event window_id ev = true) := by
  refine ⟨handle_event_eq window_id done e, ?_, ?_⟩
  · rw [handle_event_eq, Bool.false_or]
    unfold exit_event
    simp only [Bool.or_eq_true, Bool.and_eq_true, beq_iff_eq, and_assoc]
    tauto
  · rw [poll_events_eq, Bool.false_or, List.any_eq_true]

/-- One recorded command of the render command buffers (recording loop of
src/main.cpp lines 915 to 944); beginRenderPass carries the framebuffer
index used by buffer i. -/
inductive RenderCmd
  | beginRenderPass (framebuffer : Nat)
  | bindPipeline
  | draw (vertexCount instanceCount firstVertex firstInstance : Nat)
  | endRenderPass
deriving DecidableEq

/-- The commands recorded into command buffer i by the recording loop: one
render pass over framebuffer i wrapping one pipeline bind and one draw of 3
vertices and 1 instance. -/
def recorded_commands (i : Nat) : List RenderCmd :=
  [RenderCmd.beginRenderPass i, RenderCmd.bindPipeline,
    RenderCmd.draw 3 1 0 0, RenderCmd.endRenderPass]

/-- One operation of the render loop body after event polling (src/main.cpp
lines 981 to 1017). -/
inductive FrameOp
  | acquireImage
  | resetFences
  | queueSubmit (cmdBufferCount : Nat)
  | present
  | waitFences
deriving DecidableEq

/-- The render loop body after event polling, in program order: acquire a
swapchain image, reset the fence, submit one command buffer, present, wait on
the fence. -/
def frame_ops : List FrameOp :=
  [FrameOp.acquireImage, FrameOp.resetFences, FrameOp.queueSubmit 1,
    FrameOp.present, FrameOp.waitFences]

/-- The render loop of src/main.cpp lines 966 to 1018 driven by per iteration
event batches: while done is false, poll one batch (which may set done) and
then render one frame; the returned count is the number of frames rendered
over the supplied iterations. -/
def frames_rendered (window_id : Nat) : Bool → List (List SDL_Event) → Nat
  | _, [] => 0
  | done, events :: rest =>
    if done then 0
    else 1 + frames_rendered window_id (poll_events window_id done events) rest

theorem frames_rendered_done (window_id : Nat) (batches : List (List SDL_Event)) :
    frames_rendered window_id true batches = 0 := by
  cases batches <;> simp [frames_rendered]

/-- Claim C4: every recorded command buffer holds exactly one draw command, of
3 vertices and 1 instance, inside a single render pass; each loop iteration
submits exactly one command buffer; and the loop renders exactly one frame
per iteration up to and including the iteration that polls a loop exit
event, rendering one frame for every supplied iteration when no exit event
arrives. -/
theorem C4_one_triangle_per_frame :
    (∀ i : Nat,
      recorded_commands i =
        [RenderCmd.beginRenderPass i, RenderCmd.bindPipeline,
          RenderCmd.draw 3 1 0 0, RenderCmd.endRenderPass] ∧
      ((recorded_commands i).filter fun c =>
          match c with
          | RenderCmd.draw _ _ _ _ => true
          | _ => false) =
        [RenderCmd.draw 3 1 0 0]) ∧
    ((frame_ops.filter fun op =>
        match op with
        | FrameOp.queueSubmit _ => true
        | _ => false) =
      [FrameOp.queueSubmit 1]) ∧
    (∀ (window_id : Nat) (batches : List (List SDL_Event)),
      frames_rendered window_id false batches =
        min (batches.findIdx (fun events => events.any (exit_event window_id)) + 1)
          batches.length) := by
  refine ⟨fun i => ⟨rfl, rfl⟩, rfl, fun window_id batches => ?_⟩
  induction batches with
  | nil => simp [frames_rendered]
  | cons events rest ih =>
    rw [frames_rendered, List.findIdx_cons]
    simp only [Bool.false_eq_true, if_false, poll_events_eq, Bool.false_or,
      List.length_cons]
    cases h : events.any (exit_event window_id) with
    | true =>
      rw [frames_rendered_done]
      simp only [cond_true]
      omega
    | false =>
      rw [ih]
      simp only [cond_false]
      omega

/-- One external API call site of main.cpp: the function called, whether the
call can fail (it returns a VkResult, an SDL error code, or a nullable
handle), and whether the call site is wrapped in CHECK_VULKAN. -/
structure ApiCallSite where
  api : String
  fallible : Bool
  wrapped : Bool
deriving DecidableEq

/-- Shorthand constructor for a call site. -/
def site (api : String) (fallible wrapped : Bool) : ApiCallSite :=
  ⟨api, fallible, wrapped⟩

/-- Call sites of one staging buffer upload block, in order (the vertex buffer
block of src/main.cpp lines 485 to 550; the index buffer block, lines 554 to
619, and the instance buffer block, lines 740 to 816, repeat the same
sequence). -/
def buffer_upload_sites : List ApiCallSite :=
  [ site "vkCreateBuffer" true true,                      -- staging buffer
    site "vkCreateBuffer" true true,                      -- device local buffer
    site "vkGetBufferMemoryRequirements" false false,
    site "vkAllocateMemory" true true,                    -- staging memory
    site "vkBindBufferMemory" true false,
    site "vkAllocateMemory" true true,                    -- device local memory
    site "vkBindBufferMemory" true false,
    site "vkMapMemory" true false,
    site "vkUnmapMemory" false false,
    site "vkBeginCommandBuffer" true true,
    site "vkCmdCopyBuffer" false false,
    site "vkEndCommandBuffer" true true,
    site "vkQueueSubmit" true true,
    site "vkQueueWaitIdle" true false,
    site "vkResetCommandPool" true false,
    site "vkDestroyBuffer" false false,
    site "vkFreeMemory" false false ]

/-- Call sites of one acceleration structure build block, in order (the BLAS
block of src/main.cpp lines 625 to 735; the TLAS block, lines 822 to 911,
repeats the same sequence). -/
def accel_build_sites : List ApiCallSite :=
  [ site "vkCreateAccelerationStructureNV" true true,
    site "vkGetAccelerationStructureMemoryRequirementsNV" false false,
    site "vkAllocateMemory" true true,                    -- object memory
    site "vkGetAccelerationStructureMemoryRequirementsNV" false false,
    site "vkAllocateMemory" true true,                    -- scratch memory
    site "vkCreateBuffer" true true,                      -- scratch buffer
    site "vkBindBufferMemory" true false,
    site "vkBindAccelerationStructureMemoryNV" true true,
    site "vkBeginCommandBuffer" true true,
    site "vkCmdBuildAccelerationStructureNV" false false,
    site "vkEndCommandBuffer" true true,
    site "vkQueueSubmit" true true,
    site "vkQueueWaitIdle" true false,
    site "vkGetAccelerationStructureHandleNV" true true,
    site "vkResetCommandPool" true false,
    site "vkDestroyBuffer" false false,
    site "vkFreeMemory" false false ]

/-- Every external API call site of main.cpp, in program order. A site inside
a loop appears once, since being wrapped in CHECK_VULKAN is a static property
of the site. SDL_Init is checked by an if that returns -1 rather than by the
macro; SDL_CreateWindow and SDL_GetWindowWMInfo can fail and are unchecked;
vkGetDeviceProcAddr (nine sites in setup_vulkan_rtx_fcns, lines 58 to 68)
can return null and is unchecked. -/
def main_call_sites : List ApiCallSite :=
  [ site "SDL_Init" true false,
    site "SDL_CreateWindow" true false,
    site "vkEnumerateInstanceExtensionProperties" true false,   -- count query
    site "vkEnumerateInstanceExtensionProperties" true false,   -- data query
    site "vkCreateInstance" true true,
    site "SDL_GetWindowWMInfo" true false,
    site "vkCreateWin32SurfaceKHR" true true,
    site "vkEnumeratePhysicalDevices" true false,               -- count query
    site "vkEnumeratePhysicalDevices" true false,               -- data query
    site "vkGetPhysicalDeviceProperties" false false,           -- find_if lambda
    site "vkGetPhysicalDeviceProperties" false false,           -- device loop
    site "vkGetPhysicalDeviceFeatures" false false,
    site "vkEnumerateDeviceExtensionProperties" true false,     -- count query
    site "vkEnumerateDeviceExtensionProperties" true false,     -- data query
    site "vkGetPhysicalDeviceQueueFamilyProperties" false false,
    site "vkGetPhysicalDeviceQueueFamilyProperties" false false,
    site "vkGetPhysicalDeviceSurfaceSupportKHR" true false,
    site "vkCreateDevice" true true ] ++
  List.replicate 9 (site "vkGetDeviceProcAddr" true false) ++
  [ site "vkGetDeviceQueue" false false,
    site "vkGetPhysicalDeviceMemoryProperties" false false,
    site "vkGetPhysicalDeviceProperties2" false false,
    site "vkCreateSwapchainKHR" true true,
    site "vkGetSwapchainImagesKHR" true false,                  -- count query
    site "vkGetSwapchainImagesKHR" true false,                  -- data query
    site "vkCreateImageView" true true,
    site "vkCreateShaderModule" true true,                      -- vertex shader
    site "vkCreateShaderModule" true true,                      -- fragment shader
    site "vkCreatePipelineLayout" true true,
    site "vkCreateRenderPass" true true,
    site "vkCreateGraphicsPipelines" true true,
    site "vkDestroyShaderModule" false false,
    site "vkDestroyShaderModule" false false,
    site "vkCreateFramebuffer" true true,
    site "vkCreateCommandPool" true true,
    site "vkAllocateCommandBuffers" true true ] ++
  buffer_upload_sites ++                                        -- vertex upload
  buffer_upload_sites ++                                        -- index upload
  accel_build_sites ++                                          -- BLAS build
  buffer_upload_sites ++                                        -- instance upload
  accel_build_sites ++                                          -- TLAS build
  [ site "vkBeginCommandBuffer" true true,                      -- recording loop
    site "vkCmdBeginRenderPass" false false,
    site "vkCmdBindPipeline" false false,
    site "vkCmdDraw" false false,
    site "vkCmdEndRenderPass" false false,
    site "vkEndCommandBuffer" true true,
    site "vkCreateSemaphore" true true,
    site "vkCreateSemaphore" true true,
    site "vkCreateFence" true true,
    site "SDL_PollEvent" false false,                           -- render loop
    site "SDL_GetWindowID" false false,
    site "vkAcquireNextImageKHR" true true,
    site "vkResetFences" true true,
    site "vkQueueSubmit" true true,
    site "vkQueuePresentKHR" true true,
    site "vkWaitForFences" true true,
    site "vkDestroySemaphore" false false,                      -- teardown
    site "vkDestroySemaphore" false false,
    site "vkDestroyFence" false false,
    site "vkDestroyCommandPool" false false,
    site "vkDestroySwapchainKHR" false false,
    site "vkDestroyFramebuffer" false false,
    site "vkDestroyPipeline" false false,
    site "vkDestroyRenderPass" false false,
    site "vkDestroyPipelineLayout" false false,
    site "vkDestroyImageView" false false,
    site "vkDestroySurfaceKHR" false false,
    site "vkDestroyDevice" false false,
    site "vkDestroyInstance" false false,
    site "SDL_DestroyWindow" false false,
    site "SDL_Quit" false false ]

/-- main.cpp contains no try or catch: an exception thrown by CHECK_VULKAN or
by get_memory_type_index propagates out of main unhandled and terminates the
process. -/
def main_has_try_catch : Bool := false

/-- Counterexample to claim C1: not every fallible API call of main.cpp is
wrapped in CHECK_VULKAN. The vkQueueWaitIdle sites (lines 542, 611, 723, 808
and 899) return a VkResult that is discarded, so a failure there is silently
ignored rather than terminating the process. -/
theorem C1_counterexample :
    site "vkQueueWaitIdle" true false ∈ main_call_sites ∧
    ¬ (∀ c ∈ main_call_sites, c.fallible = true → c.wrapped = true) := by
  constructor
  · decide
  · intro h
    have := h (site "vkQueueWaitIdle" true false) (by decide) rfl
    exact absurd this (by decide)

set_option maxRecDepth 4000 in
/-- Claim C1 as amended: every call site wrapped in CHECK_VULKAN is fallible
and the macro turns any non VK_SUCCESS result into a thrown runtime_error,
which nothing in main catches, so a failure of a wrapped call terminates the
process; but the fallible calls at the listed sites are not wrapped and their
failures are ignored, and SDL_Init failure is handled by returning -1 rather
than by an exception. -/
theorem C1_amended_error_handling :
    (∀ r : Int, CHECK_VULKAN r = Except.ok () ↔ r = VK_SUCCESS) ∧
    (∀ r : Int, r = VK_SUCCESS ∨ CHECK_VULKAN r = Except.error "CHECK_VULKAN failed") ∧
    main_has_try_catch = false ∧
    (∀ c ∈ main_call_sites, c.wrapped = true → c.fallible = true) ∧
    ((main_call_sites.filter fun c => c.fallible && !c.wrapped).map ApiCallSite.api).dedup =
      ["SDL_Init", "SDL_CreateWindow", "vkEnumerateInstanceExtensionProperties",
        "SDL_GetWindowWMInfo", "vkEnumeratePhysicalDevices",
        "vkEnumerateDeviceExtensionProperties", "vkGetPhysicalDeviceSurfaceSupportKHR",
        "vkGetDeviceProcAddr", "vkGetSwapchainImagesKHR", "vkMapMemory",
        "vkBindBufferMemory", "vkQueueWaitIdle", "vkResetCommandPool"] := by
  refine ⟨?_, ?_, rfl, by decide, by decide⟩
  · intro r
    unfold CHECK_VULKAN
    by_cases h : r = VK_SUCCESS
    · rw [if_pos h]
      simp [h]
    · rw [if_neg h]
      simp [h]
  · intro r
    by_cases h : r = VK_SUCCESS
    · exact Or.inl h
    · exact Or.inr (by rw [CHECK_VULKAN, if_neg h])

/-- The API objects main.cpp creates, at the granularity of the declared
variables; the image view and framebuffer vectors are one entry each, as
their elements are created and later destroyed together in loops. -/
inductive Resource
  | instanceObj | surface | device | swapchain | imageViews
  | vertexShaderModule | fragmentShaderModule
  | pipelineLayout | renderPass | pipeline | framebuffers | commandPool
  | vertexUploadBuffer | vertexBuffer | vertexUploadMem | vertexMem
  | indexUploadBuffer | indexBuffer | indexUploadMem | indexMem
  | blas | blasMem | blasScratchMem | blasScratchBuffer
  | instanceUploadBuffer | instanceBuffer | instanceUploadMem | instanceMem
  | tlas | tlasMem | tlasScratchMem | tlasScratchBuffer
  | imgAvailSemaphore | renderFinishedSemaphore | fence
deriving DecidableEq

/-- Creation order of the API objects of main.cpp (creation lines 121, 134,
221, 272, 299, 315, 327, 398, 425, 440, 459, 469, 493, 496, 508, 513, 562,
565, 577, 582, 656, 674, 686, 696, 748, 751, 763, 768, 832, 850, 862, 872,
952, 953 and 961), which also matches declaration order. -/
def creation_order : List Resource :=
  [ Resource.instanceObj, Resource.surface, Resource.device, Resource.swapchain,
    Resource.imageViews, Resource.vertexShaderModule, Resource.fragmentShaderModule,
    Resource.pipelineLayout, Resource.renderPass, Resource.pipeline,
    Resource.framebuffers, Resource.commandPool,
    Resource.vertexUploadBuffer, Resource.vertexBuffer,
    Resource.vertexUploadMem, Resource.vertexMem,
    Resource.indexUploadBuffer, Resource.indexBuffer,
    Resource.indexUploadMem, Resource.indexMem,
    Resource.blas, Resource.blasMem, Resource.blasScratchMem, Resource.blasScratchBuffer,
    Resource.instanceUploadBuffer, Resource.instanceBuffer,
    Resource.instanceUploadMem, Resource.instanceMem,
    Resource.tlas, Resource.tlasMem, Resource.tlasScratchMem, Resource.tlasScratchBuffer,
    Resource.imgAvailSemaphore, Resource.renderFinishedSemaphore, Resource.fence ]

/-- Objects destroyed during setup, before the render loop, in program order
(lines 442, 443, 548, 549, 617, 618, 733, 734, 814, 815, 909 and 910). -/
def setup_destructions : List Resource :=
  [ Resource.vertexShaderModule, Resource.fragmentShaderModule,
    Resource.vertexUploadBuffer, Resource.vertexUploadMem,
    Resource.indexUploadBuffer, Resource.indexUploadMem,
    Resource.blasScratchBuffer, Resource.blasScratchMem,
    Resource.instanceUploadBuffer, Resource.instanceUploadMem,
    Resource.tlasScratchBuffer, Resource.tlasScratchMem ]

/-- Objects destroyed at shutdown, in program order (lines 1020 to 1036). -/
def shutdown_destructions : List Resource :=
  [ Resource.imgAvailSemaphore, Resource.renderFinishedSemaphore, Resource.fence,
    Resource.commandPool, Resource.swapchain, Resource.framebuffers,
    Resource.pipeline, Resource.renderPass, Resource.pipelineLayout,
    Resource.imageViews, Resource.surface, Resource.device, Resource.instanceObj ]

/-- Counterexample to claim C2: the device local vertex buffer created at
line 496 is never destroyed, neither at shutdown nor during setup, and the
shutdown sequence is not the reverse of the creation sequence. -/
theorem C2_counterexample :
    Resource.vertexBuffer ∈ creation_order ∧
    Resource.vertexBuffer ∉ shutdown_destructions ∧
    Resource.vertexBuffer ∉ setup_destructions ∧
    shutdown_destructions ≠ creation_order.reverse := by
  decide

/-- Claim C2 as amended: every destruction in main.cpp destroys a created
object and no object is destroyed twice, but ten device local objects (the
vertex, index and instance buffers with their memory, and both acceleration
structures with their memory) are never destroyed, twelve temporary objects
are destroyed during setup rather than at shutdown, and the shutdown sequence
is not the reverse of the creation sequence even when restricted to the
objects it destroys (the fence is destroyed after the two semaphores created
before it, the swapchain before the framebuffers, pipeline objects and image
views created after it, and the surface before the device). -/
theorem C2_amended_resource_lifecycle :
    (setup_destructions ++ shutdown_destructions).Nodup ∧
    (∀ r ∈ setup_destructions, r ∈ creation_order) ∧
    (∀ r ∈ shutdown_destructions, r ∈ creation_order) ∧
    (creation_order.filter fun r =>
        !(decide (r ∈ setup_destructions) || decide (r ∈ shutdown_destructions))) =
      [ Resource.vertexBuffer, Resource.vertexMem, Resource.indexBuffer,
        Resource.indexMem, Resource.blas, Resource.blasMem,
        Resource.instanceBuffer, Resource.instanceMem,
        Resource.tlas, Resource.tlasMem ] ∧
    shutdown_destructions ≠
      (creation_order.reverse.filter fun r => decide (r ∈ shutdown_destructions)) := by
  decide

/-- The five one shot GPU submissions of the setup phase, in program order. -/
inductive UploadStep
  | vertexUpload | indexUpload | blasBuild | instanceUpload | tlasBuild
deriving DecidableEq

/-- The operations of one setup step, as grouped in its block of main.cpp. -/
inductive StepOp
  | createObjects   -- vkCreateBuffer or vkCreateAccelerationStructureNV calls
  | allocAndBind    -- vkAllocateMemory and memory binding calls
  | writeStaging    -- vkMapMemory, memcpy, vkUnmapMemory
  | recordCommands  -- vkBeginCommandBuffer up to vkEndCommandBuffer
  | submit          -- vkQueueSubmit of the one shot command buffer
  | waitIdle        -- vkQueueWaitIdle on the queue
  | queryHandle     -- vkGetAccelerationStructureHandleNV
  | resetPool       -- vkResetCommandPool
  | destroyTemps    -- vkDestroyBuffer and vkFreeMemory of staging or scratch
deriving DecidableEq

/-- Operation sequence of one staging buffer upload block (vertex: lines 485
to 550, index: 554 to 619, instance: 740 to 816). -/
def buffer_upload_ops : List StepOp :=
  [ StepOp.createObjects, StepOp.allocAndBind, StepOp.writeStaging,
    StepOp.recordCommands, StepOp.submit, StepOp.waitIdle,
    StepOp.resetPool, StepOp.destroyTemps ]

/-- Operation sequence of one acceleration structure build block (BLAS: lines
625 to 735, TLAS: 822 to 911): the handle query at lines 725 and 901 comes
after the wait idle. -/
def accel_build_ops : List StepOp :=
  [ StepOp.createObjects, StepOp.allocAndBind, StepOp.recordCommands,
    StepOp.submit, StepOp.waitIdle, StepOp.queryHandle,
    StepOp.resetPool, StepOp.destroyTemps ]

/-- The full interleaving of setup step operations in program order, each
tagged with the step it belongs to. -/
def upload_sequence : List (UploadStep × StepOp) :=
  (buffer_upload_ops.map fun op => (UploadStep.vertexUpload, op)) ++
  (buffer_upload_ops.map fun op => (UploadStep.indexUpload, op)) ++
  (accel_build_ops.map fun op => (UploadStep.blasBuild, op)) ++
  (buffer_upload_ops.map fun op => (UploadStep.instanceUpload, op)) ++
  (accel_build_ops.map fun op => (UploadStep.tlasBuild, op))

/-- Claim C3: each of the five upload steps performs exactly one queue
submission, the operation immediately after each submission is the wait idle
of the same step, and the steps are contiguous and in order, so the wait
idle precedes every operation of the next step. -/
theorem C3_wait_idle_after_each_submit :
    ((upload_sequence.filter fun p => p.2 == StepOp.submit).map Prod.fst) =
      [ UploadStep.vertexUpload, UploadStep.indexUpload, UploadStep.blasBuild,
        UploadStep.instanceUpload, UploadStep.tlasBuild ] ∧
    (∀ i : Nat, i < upload_sequence.length →
      (upload_sequence.getD i (UploadStep.vertexUpload, StepOp.submit)).2 = StepOp.submit →
      upload_sequence.getD (i + 1) (UploadStep.vertexUpload, StepOp.waitIdle) =
        ((upload_sequence.getD i (UploadStep.vertexUpload, StepOp.submit)).1,
          StepOp.waitIdle)) ∧
    upload_sequence.map Prod.fst =
      List.replicate 8 UploadStep.vertexUpload ++
      List.replicate 8 UploadStep.indexUpload ++
      List.replicate 8 UploadStep.blasBuild ++
      List.replicate 8 UploadStep.instanceUpload ++
      List.replicate 8 UploadStep.tlasBuild := by
  decide

/-- The kinds of operation main.cpp issues on a VkQueue. -/
inductive QueueOpKind
  | submit | waitIdle | present
deriving DecidableEq

/-- One queue operation call site: its kind and the name of the program
variable passed as the queue argument. -/
structure QueueOp where
  kind : QueueOpKind
  queueArg : String
deriving DecidableEq

/-- All vkQueueSubmit, vkQueueWaitIdle and vkQueuePresentKHR call sites of
main.cpp in program order: one submit and wait idle pair per setup step
(lines 541 and 542, 610 and 611, 722 and 723, 807 and 808, 898 and 899),
then the per frame submit (line 1003) and present (line 1014). -/
def queue_call_sites : List QueueOp :=
  [ QueueOp.mk QueueOpKind.submit "vk_queue",
    QueueOp.mk QueueOpKind.waitIdle "vk_queue",
    QueueOp.mk QueueOpKind.submit "vk_queue",
    QueueOp.mk QueueOpKind.waitIdle "vk_queue",
    QueueOp.mk QueueOpKind.submit "vk_queue",
    QueueOp.mk QueueOpKind.waitIdle "vk_queue",
    QueueOp.mk QueueOpKind.submit "vk_queue",
    QueueOp.mk QueueOpKind.waitIdle "vk_queue",
    QueueOp.mk QueueOpKind.submit "vk_queue",
    QueueOp.mk QueueOpKind.waitIdle "vk_queue",
    QueueOp.mk QueueOpKind.submit "vk_queue",
    QueueOp.mk QueueOpKind.present "vk_queue" ]

/-- One vkGetDeviceQueue call site: the queue family variable, the queue
index within the family, and the variable receiving the handle. -/
structure GetDeviceQueueCall where
  familyArg : String
  queueIndex : Nat
  destVar : String
deriving DecidableEq

/-- The vkGetDeviceQueue call sites of main.cpp: a single call (line 224)
fetching queue index 0 of the chosen graphics and present family
graphics_queue_index into vk_queue. -/
def get_device_queue_calls : List GetDeviceQueueCall :=
  [ GetDeviceQueueCall.mk "graphics_queue_index" 0 "vk_queue" ]

/-- Claim C6: exactly one queue handle is obtained, at queue index 0 of the
chosen graphics and present family, and every queue operation of the program
(six submissions counting the per frame one, five wait idles, and the
present) passes that same handle. -/
theorem C6_single_queue_for_everything :
    get_device_queue_calls.length = 1 ∧
    (∀ c ∈ get_device_queue_calls,
      c.queueIndex = 0 ∧ c.familyArg = "graphics_queue_index" ∧ c.destVar = "vk_queue") ∧
    (∀ op ∈ queue_call_sites, op.queueArg = "vk_queue") ∧
    (queue_call_sites.filter fun op => op.kind == QueueOpKind.submit).length = 6 ∧
    (queue_call_sites.filter fun op => op.kind == QueueOpKind.waitIdle).length = 5 ∧
    (queue_call_sites.filter fun op => op.kind == QueueOpKind.present).length = 1 := by
  decide

/-- The observable behavior of main as modelled in this development: the API
call sites it makes, the resources it creates and destroys, the setup step
sequence, the queue operations, the per frame operations, the recorded
command buffers and the frame count function. -/
structure ProgramBehavior where
  callSites : List ApiCallSite
  creations : List Resource
  setupDestroys : List Resource
  shutdownDestroys : List Resource
  uploadSeq : List (UploadStep × StepOp)
  queueSites : List QueueOp
  perFrameOps : List FrameOp
  recorded : Nat → List RenderCmd
  frameCount : Nat → Bool → List (List SDL_Event) → Nat

/-- Translation of main (argc, argv) at the granularity of this development:
main.cpp line 73 binds argc and argv, but the body never reads either, so
the behavior record is built from constants that do not depend on them. -/
def main_behavior (argc : Nat) (argv : List String) : ProgramBehavior :=
  { callSites := main_call_sites
    creations := creation_order
    setupDestroys := setup_destructions
    shutdownDestroys := shutdown_destructions
    uploadSeq := upload_sequence
    queueSites := queue_call_sites
    perFrameOps := frame_ops
    recorded := recorded_commands
    frameCount := frames_rendered }

/-- Claim C7: the behavior of the program does not depend on the command line
arguments; any two argument vectors give the same modelled behavior. -/
theorem C7_argument_independence :
    ∀ (argc1 : Nat) (argv1 : List String) (argc2 : Nat) (argv2 : List String),
      main_behavior argc1 argv1 = main_behavior argc2 argv2 :=
  fun _ _ _ _ => rfl

end SdlVulkan
